import Mathlib

/-!
Verification of the OpenClaw gateway: a shallow embedding of the agent
orchestration loop (src/llm, the `Agent` class), the WhatsApp channel
session state machine (`WhatsAppChannel`), and the channel registry
(`ChannelManager`), together with proofs of the behavioural properties
stated in the design document.

External collaborators (the LLM endpoint, tool executors, the Baileys
socket, the memory store) are modelled as oracles: total functions or
`Except`-valued results supplied as parameters, exactly at the points
where the source awaits them.
-/

namespace OpenClaw

/-! ## Data model (src/llm: ChatMessage, ToolCall, LLMResponse) -/

inductive Role where
  | system
  | user
  | assistant
  | tool
  deriving DecidableEq

structure ToolCall where
  id : String
  name : String
  arguments : String
  deriving DecidableEq

structure ChatMessage where
  role : Role
  content : String
  tool_calls : List ToolCall := []
  tool_call_id : Option String := none
  deriving DecidableEq

structure LLMResponse where
  content : String
  tool_calls : List ToolCall := []
  deriving DecidableEq

/-- Oracle for `this.llm.chat(messages, tools)`: the i-th LLM request of one
`Agent.chat` invocation either throws (`Except.error`) or returns a parsed
response. -/
abbrev LLMOracle : Type := Nat → Except String LLMResponse

/-- Oracle for `this.toolManager.executeTool(name, args)`: a tool invocation
either throws or returns a result string. -/
abbrev ToolOracle : Type := ToolCall → Except String String

/-! ## Tool-result truncation (Agent.chat, the MAX_TOOL_RESULT block) -/

/-- JS `result.substring(0, n)`: the first `n` characters. -/
def stringTake (s : String) (n : Nat) : String :=
  String.mk (s.data.take n)

def MAX_TOOL_RESULT : Nat := 4000

/-- The truncation applied to each tool result before it is appended to the
message list: `result.substring(0, 4000)` plus the omission marker. -/
def truncateResult (result : String) : String :=
  if result.length > MAX_TOOL_RESULT then
    stringTake result MAX_TOOL_RESULT ++
      "\n\n[...truncated, " ++ toString (result.length - MAX_TOOL_RESULT) ++
      " chars omitted]"
  else
    result

/-- The `catch` around `executeTool`: a thrown error is rendered as a
`Tool error: ...` result string instead of aborting the turn. -/
def renderToolOutcome : Except String String → String
  | Except.ok result => result
  | Except.error msg => "Tool error: " ++ msg

/-- The `tool` message pushed for one tool call: the (possibly truncated)
result, referencing the call id. -/
def toolResponseMessage (tool : ToolOracle) (tc : ToolCall) : ChatMessage :=
  { role := Role.tool
    content := truncateResult (renderToolOutcome (tool tc))
    tool_call_id := some tc.id }

/-- The assistant message recording the tool calls of one LLM response
(content may be empty). -/
def assistantToolCallMessage (response : LLMResponse) : ChatMessage :=
  { role := Role.assistant
    content := response.content
    tool_calls := response.tool_calls }

/-- `response.content || 'I processed the request but have no additional
response.'` -/
def finalAssistantText (response : LLMResponse) : String :=
  if response.content = "" then
    "I processed the request but have no additional response."
  else response.content

def MAX_ITERATIONS_REPLY : String :=
  "I reached the maximum number of tool iterations. Please try rephrasing your request."

def llmFailureReply (msg : String) : String :=
  "Sorry, the LLM request failed: " ++ msg

structure LoopResult where
  reply : String
  history : List ChatMessage
  llmCalls : Nat
  deriving DecidableEq

/-- The `while (maxIterations > 0)` orchestration loop of `Agent.chat`:
`callIdx` numbers the LLM requests issued so far in this invocation, `fuel`
is the remaining iteration budget (10 at entry). -/
def chatLoop (llm : LLMOracle) (tool : ToolOracle) :
    Nat → Nat → List ChatMessage → LoopResult
  | _, 0, messages =>
    { reply := MAX_ITERATIONS_REPLY, history := messages, llmCalls := 0 }
  | callIdx, fuel + 1, messages =>
    match llm callIdx with
    | Except.error msg =>
      { reply := llmFailureReply msg, history := messages, llmCalls := 1 }
    | Except.ok response =>
      if response.tool_calls.length > 0 then
        let rest := chatLoop llm tool (callIdx + 1) fuel
          (messages ++ (assistantToolCallMessage response ::
            response.tool_calls.map (toolResponseMessage tool)))
        { reply := rest.reply, history := rest.history,
          llmCalls := rest.llmCalls + 1 }
      else
        { reply := finalAssistantText response
          history := messages ++
            [{ role := Role.assistant, content := finalAssistantText response }]
          llmCalls := 1 }

/-! ## System prompt seeding (buildSystemPrompt, Agent.chat preamble) -/

/-- `buildSystemPrompt()`: the environment variables HOST_USER and
HOST_HOME_DIR are oracles (`none` = unset). -/
def buildSystemPrompt (hostUserEnv hostHomeEnv : Option String) : String :=
  let hostUser := hostUserEnv.getD "utente"
  let hostHome := hostHomeEnv.getD ("/home/" ++ hostUser)
  "You are OpenClaw, an AI assistant with full access to the user's computer. You have tools to execute bash commands, read/write files, and browse the web.\n\nWhen the user asks you to perform tasks, use the appropriate tools. Be helpful, concise, and proactive.\n\nImportant:\n- Your workspace is at /home/node/.openclaw/workspace\n- The user's home directory is accessible at /host-home (inside this container)\n- The host user is \"" ++ hostUser ++ "\" with home directory \"" ++ hostHome ++
  "\"\n- Use the bash tool for system operations\n- Use file tools for reading and writing files\n- Use the browse tool to visit websites and open web pages — when you browse a URL, a real browser window opens on the user's screen\n- When the user asks you to \"open\" a website, use the browse tool immediately — do NOT suggest they open it manually\n- Use the claude_code tool for any coding task — building websites, writing scripts, debugging code, refactoring, etc. It is a powerful AI coding agent that can read/write files and run commands. Delegate all software engineering work to it.\n- When the user asks you to \"code\", \"build\", \"create a website\", \"write a script\", or any programming task, use the claude_code tool immediately\n- IMPORTANT: The claude_code tool runs on the HOST machine via SSH, not inside this container. When specifying workdir for claude_code, use real host paths under \"" ++ hostHome ++
  "\" (e.g., \"" ++ hostHome ++ "/Scrivania\"), NOT container paths like /host-home. The /host-home mount is only for your own bash/file tools.\n- Always confirm before destructive operations"

/-- In-memory `Map<string, ChatMessage[]>` of conversations. -/
abbrev ConversationStore : Type := String → Option (List ChatMessage)

def emptyStore : ConversationStore := fun _ => none

def setConversation (store : ConversationStore) (conversationId : String)
    (history : List ChatMessage) : ConversationStore :=
  fun key => if key = conversationId then some history else store key

/-- `Agent.clearConversation`: `this.conversations.delete(conversationId)`. -/
def clearConversationStore (store : ConversationStore)
    (conversationId : String) : ConversationStore :=
  fun key => if key = conversationId then none else store key

/-- The message list after the `Agent.chat` preamble: seed an empty history
with the system message (static prompt, plus the memory context when
non-empty), then append the user message. `memoryContext` is the oracle for
`this.memory.getContext()`. -/
def initialMessages (hostUserEnv hostHomeEnv : Option String)
    (memoryContext : String) (stored : List ChatMessage)
    (userMessage : String) : List ChatMessage :=
  let seeded :=
    if stored.length = 0 then
      let systemContent :=
        if memoryContext ≠ "" then
          buildSystemPrompt hostUserEnv hostHomeEnv ++ "\n\n" ++ memoryContext
        else
          buildSystemPrompt hostUserEnv hostHomeEnv
      stored ++ [{ role := Role.system, content := systemContent }]
    else stored
  seeded ++ [{ role := Role.user, content := userMessage }]

structure ChatOutcome where
  reply : String
  store : ConversationStore
  llmCalls : Nat

/-- `Agent.chat(conversationId, userMessage)`. Every exit path of the source
runs `this.conversations.set(conversationId, messages)` on the current
message list before returning, so the stored history is the loop result's
history on all paths (LLM failure, final reply, exhausted iterations). -/
def Agent.chat (hostUserEnv hostHomeEnv : Option String)
    (memoryContext : String) (llm : LLMOracle) (tool : ToolOracle)
    (store : ConversationStore) (conversationId userMessage : String) :
    ChatOutcome :=
  let stored := (store conversationId).getD []
  let messages :=
    initialMessages hostUserEnv hostHomeEnv memoryContext stored userMessage
  let result := chatLoop llm tool 0 10 messages
  { reply := result.reply
    store := setConversation store conversationId result.history
    llmCalls := result.llmCalls }

/-! ## Agent operation sequences (for the conversation-store invariant) -/

inductive AgentOp where
  | chat (hostUserEnv hostHomeEnv : Option String) (memoryContext : String)
      (llm : LLMOracle) (tool : ToolOracle)
      (conversationId userMessage : String)
  | clear (conversationId : String)

def applyOp (store : ConversationStore) : AgentOp → ConversationStore
  | AgentOp.chat hu hh mc llm tool cid msg =>
    (Agent.chat hu hh mc llm tool store cid msg).store
  | AgentOp.clear cid => clearConversationStore store cid

def applyOps (ops : List AgentOp) : ConversationStore :=
  ops.foldl applyOp emptyStore

/-- Number of `system`-role messages in a history. -/
def countSystem (history : List ChatMessage) : Nat :=
  (history.filter (fun m => m.role == Role.system)).length

/-! ## WhatsApp channel: connection state machine (WhatsAppChannel.connect,
the connection.update handler) -/

/-- `DisconnectReason.loggedOut` of the Baileys library. -/
def DisconnectReason.loggedOut : Nat := 401

structure WAConnState where
  connected : Bool
  reconnectAttempts : Nat
  stopping : Bool
  deriving DecidableEq

def maxReconnectAttempts : Nat := 10

inductive ConnectionEvent where
  | opened
  | closed (statusCode : Option Nat)
  deriving DecidableEq

/-- What the close handler schedules besides the state update. -/
inductive ReconnectAction where
  | waitAndReconnect (delayMs : Nat)
  | loggedOutNoRetry
  | gaveUp
  | nothing
  deriving DecidableEq

/-- The `connection.update` event handler: `open` marks connected and resets
the attempt counter; `close` (when not stopping) schedules a reconnect after
`min(1000 * 2 ^ attempts, 60000)` ms unless logged out or out of attempts. -/
def onConnectionUpdate (st : WAConnState) (event : ConnectionEvent) :
    WAConnState × ReconnectAction :=
  match event with
  | ConnectionEvent.opened =>
    ({ st with connected := true, reconnectAttempts := 0 },
      ReconnectAction.nothing)
  | ConnectionEvent.closed statusCode =>
    let st1 := { st with connected := false }
    if st1.stopping then (st1, ReconnectAction.nothing)
    else
      let shouldReconnect := statusCode ≠ some DisconnectReason.loggedOut
      if shouldReconnect ∧ st1.reconnectAttempts < maxReconnectAttempts then
        let st2 := { st1 with reconnectAttempts := st1.reconnectAttempts + 1 }
        (st2, ReconnectAction.waitAndReconnect
          (min (1000 * 2 ^ st2.reconnectAttempts) 60000))
      else if statusCode = some DisconnectReason.loggedOut then
        (st1, ReconnectAction.loggedOutNoRetry)
      else
        (st1, ReconnectAction.gaveUp)

/-- State right after a successful `connection.update` open event. -/
def freshOpenState : WAConnState :=
  { connected := true, reconnectAttempts := 0, stopping := false }

/-- State after `n` consecutive close events with the given status code. -/
def applyCloses (statusCode : Option Nat) (st : WAConnState) : Nat → WAConnState
  | 0 => st
  | n + 1 =>
    (onConnectionUpdate (applyCloses statusCode st n)
      (ConnectionEvent.closed statusCode)).1

/-! ## WhatsApp channel: inbound message handling
(WhatsAppChannel.handleIncomingMessage) -/

structure WAMessageKey where
  remoteJid : Option String
  fromMe : Bool
  id : Option String
  deriving DecidableEq

/-- The content shapes inspected by the text-extraction chain; JS `undefined`
is `none`. -/
structure WAMessageContent where
  conversation : Option String
  extendedTextMessageText : Option String
  imageMessageCaption : Option String
  videoMessageCaption : Option String
  deriving DecidableEq

structure WAMessageInfo where
  key : Option WAMessageKey
  message : Option WAMessageContent
  pushName : Option String
  deriving DecidableEq

structure WASessionConfig where
  allowedSenders : Option (List String)
  replyOnlyToDirectMessages : Bool
  deriving DecidableEq

/-- The two dedup sets of a session. A JS `Set` iterates in insertion order
and holds no duplicates, so each is modelled as an insertion-ordered list.
(The `messageStore` cache, which only backs Baileys `getMessage` retries and
is expired by wall-clock timers, is not modelled.) -/
structure WAMessagingState where
  processedMessages : List String
  botSentMessages : List String
  deriving DecidableEq

/-- `set.add(x)` on a JS `Set`. -/
def jsSetAdd (s : List String) (x : String) : List String :=
  if x ∈ s then s else s ++ [x]

/-- `set.delete(x)` on a JS `Set`. -/
def jsSetDelete (s : List String) (x : String) : List String :=
  s.erase x

/-- The size limit applied to `processedMessages` after each insertion: when
the set exceeds 1000 entries, the oldest 500 (first in insertion order) are
deleted. -/
def trimProcessed (s : List String) : List String :=
  if s.length > 1000 then s.drop 500 else s

/-- JS `s.endsWith(suffix)`, on the character sequence. -/
def jsEndsWith (s suffix : String) : Bool :=
  decide (suffix.data.length ≤ s.data.length) &&
    (s.data.drop (s.data.length - suffix.data.length) == suffix.data)

/-- Drop the last `n` characters of a string. -/
def jsDropRight (s : String) (n : Nat) : String :=
  String.mk (s.data.take (s.data.length - n))

/-- JS `text.trim()`: strip whitespace from both ends. -/
def jsTrim (s : String) : String :=
  String.mk
    (((s.data.dropWhile Char.isWhitespace).reverse.dropWhile
      Char.isWhitespace).reverse)

/-- Baileys `isJidUser`: a user JID on the `s.whatsapp.net` server. -/
def isJidUser (jid : String) : Bool :=
  jsEndsWith jid "@s.whatsapp.net"

/-- `jid.replace(/@(s\.whatsapp\.net|lid)$/, '')`. -/
def stripJidServer (jid : String) : String :=
  if jsEndsWith jid "@s.whatsapp.net" then
    jsDropRight jid "@s.whatsapp.net".length
  else if jsEndsWith jid "@lid" then
    jsDropRight jid "@lid".length
  else jid

/-- JS `a || b || ... || ''` over optional strings: the first present,
non-empty one ( `''` and `undefined` are both falsy). -/
def firstTruthy : List (Option String) → String
  | [] => ""
  | some s :: rest => if s = "" then firstTruthy rest else s
  | none :: rest => firstTruthy rest

/-- The text-extraction chain over the known content shapes. -/
def extractText (content : WAMessageContent) : String :=
  firstTruthy [content.conversation, content.extendedTextMessageText,
    content.imageMessageCaption, content.videoMessageCaption]

inductive HandleOutcome where
  | skippedMissingFields
  | skippedBotEcho
  | skippedDuplicate
  | skippedNotDirectMessage
  | skippedSenderNotAllowed
  | skippedEmptyText
  | skippedNoHandler
  | presenceFailed
  | handlerThrew (senderId text : String)
  | handlerInvoked (senderId text : String) (sentMessageId : Option String)
  deriving DecidableEq

/-- Whether the outcome corresponds to an invocation of the message handler
(and hence of the orchestration loop). -/
def HandleOutcome.invokedHandler : HandleOutcome → Bool
  | HandleOutcome.handlerThrew _ _ => true
  | HandleOutcome.handlerInvoked _ _ _ => true
  | _ => false

/-- `msg.key.fromMe && msg.key.id && this.botSentMessages.has(msg.key.id)`. -/
def isBotEcho (st : WAMessagingState) (key : WAMessageKey) : Bool :=
  key.fromMe &&
    (match key.id with
      | some i => decide (i ∈ st.botSentMessages)
      | none => false)

/-- The `allowedSenders` filter: configured, non-empty, and the sender is not
listed. -/
def senderBlocked (config : WASessionConfig) (senderNumber : String) : Bool :=
  match config.allowedSenders with
  | some allowed => decide (allowed.length > 0) && decide (senderNumber ∉ allowed)
  | none => false

/-- `handleIncomingMessage(msg)`. Oracles: `hasHandler` / `socketPresent`
mirror the nullable `this.handler` / `this.socket`; `presenceOk` is whether
the presence updates before the handler call succeed; `handlerResult` is the
awaited handler (orchestration loop) reply; `sendResult` is the awaited
`sendMessage` reply (`Except.error` = threw, the payload is `sent?.key?.id`).
Returns the updated dedup state and what happened. -/
def handleIncomingMessage (config : WASessionConfig)
    (hasHandler socketPresent presenceOk : Bool)
    (handlerResult : Except String String)
    (sendResult : Except String (Option String))
    (st : WAMessagingState) (msg : WAMessageInfo) :
    WAMessagingState × HandleOutcome :=
  match msg.key, msg.message with
  | some key, some content =>
    match key.remoteJid with
    | none => (st, HandleOutcome.skippedMissingFields)
    | some jid =>
      -- echo of a message this session itself sent: consume the id once
      if isBotEcho st key then
        ({ st with botSentMessages :=
            jsSetDelete st.botSentMessages (key.id.getD "") },
          HandleOutcome.skippedBotEcho)
      else
        match key.id with
        | none => (st, HandleOutcome.skippedDuplicate)
        | some msgId =>
          if msgId ∈ st.processedMessages then
            (st, HandleOutcome.skippedDuplicate)
          else
            let newProcessed := trimProcessed (jsSetAdd st.processedMessages msgId)
            let st1 := { st with processedMessages := newProcessed }
            let isDirectMessage := isJidUser jid || jsEndsWith jid "@lid"
            if config.replyOnlyToDirectMessages ∧ ¬ isDirectMessage then
              (st1, HandleOutcome.skippedNotDirectMessage)
            else
              let senderNumber := stripJidServer jid
              if senderBlocked config senderNumber then
                (st1, HandleOutcome.skippedSenderNotAllowed)
              else
                let text := extractText content
                if jsTrim text = "" then (st1, HandleOutcome.skippedEmptyText)
                else if ¬ hasHandler then (st1, HandleOutcome.skippedNoHandler)
                else if ¬ presenceOk then (st1, HandleOutcome.presenceFailed)
                else
                  match handlerResult with
                  | Except.error _ =>
                    (st1, HandleOutcome.handlerThrew senderNumber (jsTrim text))
                  | Except.ok response =>
                    if response ≠ "" ∧ socketPresent then
                      match sendResult with
                      | Except.error _ =>
                        (st1, HandleOutcome.handlerInvoked senderNumber
                          (jsTrim text) none)
                      | Except.ok none =>
                        (st1, HandleOutcome.handlerInvoked senderNumber
                          (jsTrim text) none)
                      | Except.ok (some sentId) =>
                        ({ st1 with botSentMessages :=
                            jsSetAdd st1.botSentMessages sentId },
                          HandleOutcome.handlerInvoked senderNumber
                            (jsTrim text) (some sentId))
                    else
                      (st1, HandleOutcome.handlerInvoked senderNumber
                        (jsTrim text) none)
  | _, _ => (st, HandleOutcome.skippedMissingFields)

/-! ## Channel registry (ChannelManager.startAll / stopAll) -/

structure ChannelSpec where
  name : String
  startResult : Except String Unit
  stopResult : Except String Unit

inductive LogEntry where
  | info (text : String)
  | error (text : String)
  deriving DecidableEq

/-- `startAll`: iterate over the registered channels, `try` to start each
(only when a handler is set), logging success or failure and continuing with
the remaining channels either way. Each channel's start is an oracle. -/
def startAll (hasHandler : Bool) : List ChannelSpec → List LogEntry
  | [] => []
  | c :: rest =>
    (if hasHandler then
      match c.startResult with
      | Except.ok _ => [LogEntry.info ("Channel started: " ++ c.name)]
      | Except.error e =>
        [LogEntry.error ("Failed to start channel " ++ c.name ++ ": " ++ e)]
    else []) ++ startAll hasHandler rest

/-- `stopAll`: iterate over the registered channels, `try` to stop each,
logging success or failure and continuing with the remaining channels. -/
def stopAll : List ChannelSpec → List LogEntry
  | [] => []
  | c :: rest =>
    (match c.stopResult with
      | Except.ok _ => [LogEntry.info ("Channel stopped: " ++ c.name)]
      | Except.error e =>
        [LogEntry.error ("Failed to stop channel " ++ c.name ++ ": " ++ e)]) ++
    stopAll rest

/-! ## Helper lemmas about the orchestration loop -/

/-- The messages one loop iteration appends when the response carries tool
calls: the assistant message recording the calls, then one tool message per
call, in the order received. -/
def toolRoundMessages (tool : ToolOracle) (response : LLMResponse) :
    List ChatMessage :=
  assistantToolCallMessage response ::
    response.tool_calls.map (toolResponseMessage tool)

theorem chatLoop_step_error (llm : LLMOracle) (tool : ToolOracle)
    (callIdx fuel : Nat) (messages : List ChatMessage) (e : String)
    (h : llm callIdx = Except.error e) :
    chatLoop llm tool callIdx (fuel + 1) messages =
      { reply := llmFailureReply e, history := messages, llmCalls := 1 } := by
  conv_lhs => rw [chatLoop]
  rw [h]

theorem chatLoop_step_toolcalls (llm : LLMOracle) (tool : ToolOracle)
    (callIdx fuel : Nat) (messages : List ChatMessage) (response : LLMResponse)
    (h : llm callIdx = Except.ok response)
    (htc : response.tool_calls.length > 0) :
    chatLoop llm tool callIdx (fuel + 1) messages =
      { reply := (chatLoop llm tool (callIdx + 1) fuel
          (messages ++ toolRoundMessages tool response)).reply
        history := (chatLoop llm tool (callIdx + 1) fuel
          (messages ++ toolRoundMessages tool response)).history
        llmCalls := (chatLoop llm tool (callIdx + 1) fuel
          (messages ++ toolRoundMessages tool response)).llmCalls + 1 } := by
  conv_lhs => rw [chatLoop]
  rw [h]
  simp [htc, toolRoundMessages]

theorem chatLoop_step_final (llm : LLMOracle) (tool : ToolOracle)
    (callIdx fuel : Nat) (messages : List ChatMessage) (response : LLMResponse)
    (h : llm callIdx = Except.ok response)
    (htc : ¬ response.tool_calls.length > 0) :
    chatLoop llm tool callIdx (fuel + 1) messages =
      { reply := finalAssistantText response
        history := messages ++
          [{ role := Role.assistant, content := finalAssistantText response }]
        llmCalls := 1 } := by
  conv_lhs => rw [chatLoop]
  rw [h]
  simp [htc]

theorem chatLoop_llmCalls_le (llm : LLMOracle) (tool : ToolOracle) :
    ∀ (fuel callIdx : Nat) (messages : List ChatMessage),
      (chatLoop llm tool callIdx fuel messages).llmCalls ≤ fuel := by
  intro fuel
  induction fuel with
  | zero => intro callIdx messages; simp [chatLoop]
  | succ n ih =>
    intro callIdx messages
    cases h : llm callIdx with
    | error e =>
      rw [chatLoop_step_error llm tool callIdx n messages e h]
      exact Nat.succ_le_succ (Nat.zero_le n)
    | ok response =>
      by_cases htc : response.tool_calls.length > 0
      · rw [chatLoop_step_toolcalls llm tool callIdx n messages response h htc]
        exact Nat.succ_le_succ (ih _ _)
      · rw [chatLoop_step_final llm tool callIdx n messages response h htc]
        exact Nat.succ_le_succ (Nat.zero_le n)

/-- The i-th LLM request of an invocation succeeds and asks for at least one
tool call. -/
def llmGivesToolCalls (llm : LLMOracle) (i : Nat) : Prop :=
  ∃ response, llm i = Except.ok response ∧ response.tool_calls.length > 0

theorem chatLoop_all_toolcalls (llm : LLMOracle) (tool : ToolOracle) :
    ∀ (fuel callIdx : Nat) (messages : List ChatMessage),
      (∀ i, callIdx ≤ i → i < callIdx + fuel → llmGivesToolCalls llm i) →
      (chatLoop llm tool callIdx fuel messages).reply = MAX_ITERATIONS_REPLY := by
  intro fuel
  induction fuel with
  | zero => intro callIdx messages _; simp [chatLoop]
  | succ n ih =>
    intro callIdx messages hall
    obtain ⟨response, h, htc⟩ := hall callIdx (le_refl _) (by omega)
    rw [chatLoop_step_toolcalls llm tool callIdx n messages response h htc]
    exact ih (callIdx + 1) (messages ++ toolRoundMessages tool response)
      (fun i h1 h2 => hall i (by omega) (by omega))

/-! ## C1 and C2 -/

/-- C1: one `Agent.chat` invocation issues at most 10 LLM requests, and when
every one of the 10 possible requests asks for tool calls, the invocation
returns the fixed maximum-iterations text instead of raising. -/
theorem chat_llm_request_cap (hostUserEnv hostHomeEnv : Option String)
    (memoryContext : String) (llm : LLMOracle) (tool : ToolOracle)
    (store : ConversationStore) (conversationId userMessage : String) :
    (Agent.chat hostUserEnv hostHomeEnv memoryContext llm tool store
      conversationId userMessage).llmCalls ≤ 10 ∧
    ((∀ i, i < 10 → llmGivesToolCalls llm i) →
      (Agent.chat hostUserEnv hostHomeEnv memoryContext llm tool store
        conversationId userMessage).reply = MAX_ITERATIONS_REPLY) := by
  constructor
  · exact chatLoop_llmCalls_le llm tool 10 0 _
  · intro hall
    exact chatLoop_all_toolcalls llm tool 10 0 _
      (fun i h1 h2 => hall i (by omega))

def loopingLlm : LLMOracle := fun _ =>
  Except.ok
    { content := ""
      tool_calls := [{ id := "call-0", name := "bash", arguments := "ls" }] }

def neverTool : ToolOracle := fun _ => Except.ok "done"

theorem chat_llm_request_cap_witness :
    (Agent.chat none none "" loopingLlm neverTool emptyStore "conv" "hi").llmCalls ≤ 10 ∧
    (Agent.chat none none "" loopingLlm neverTool emptyStore "conv" "hi").reply =
      MAX_ITERATIONS_REPLY :=
  ⟨(chat_llm_request_cap none none "" loopingLlm neverTool emptyStore "conv" "hi").1,
   (chat_llm_request_cap none none "" loopingLlm neverTool emptyStore "conv" "hi").2
     (fun i _ => ⟨_, rfl, by decide⟩)⟩

theorem stringTake_length (s : String) (n : Nat) :
    (stringTake s n).length = min n s.length := by
  show (s.data.take n).length = min n s.data.length
  simp [List.length_take]

/-- C2: a tool result of more than 4,000 characters is replaced, before being
fed onward, by exactly its first 4,000 characters followed by the omission
marker whose count N satisfies 4000 + N = original length; a result of at
most 4,000 characters passes through unchanged. The message built for the
next LLM call carries exactly this truncation. -/
theorem tool_result_truncation (result : String) :
    (result.length ≤ MAX_TOOL_RESULT → truncateResult result = result) ∧
    (result.length > MAX_TOOL_RESULT →
      truncateResult result =
        stringTake result MAX_TOOL_RESULT ++
          "\n\n[...truncated, " ++ toString (result.length - MAX_TOOL_RESULT) ++
          " chars omitted]" ∧
      (stringTake result MAX_TOOL_RESULT).length = MAX_TOOL_RESULT ∧
      MAX_TOOL_RESULT + (result.length - MAX_TOOL_RESULT) = result.length) ∧
    (∀ (tool : ToolOracle) (tc : ToolCall), tool tc = Except.ok result →
      (toolResponseMessage tool tc).content = truncateResult result) := by
  refine ⟨?_, ?_, ?_⟩
  · intro h
    unfold truncateResult
    rw [if_neg (by omega)]
  · intro h
    refine ⟨?_, ?_, by omega⟩
    · unfold truncateResult
      rw [if_pos h]
    · rw [stringTake_length]
      omega
  · intro tool tc htool
    simp [toolResponseMessage, renderToolOutcome, htool]

def longToolResult : String := String.mk (List.replicate 4001 'a')

theorem longToolResult_length : longToolResult.length = 4001 := by
  show (List.replicate 4001 'a').length = 4001
  rw [List.length_replicate]

theorem tool_result_truncation_witness :
    truncateResult "short result" = "short result" ∧
    truncateResult longToolResult =
      stringTake longToolResult MAX_TOOL_RESULT ++
        "\n\n[...truncated, " ++ toString (longToolResult.length - MAX_TOOL_RESULT) ++
        " chars omitted]" ∧
    (toolResponseMessage neverTool { id := "c", name := "bash", arguments := "" }).content =
      truncateResult "done" :=
  ⟨(tool_result_truncation "short result").1 (by decide),
   ((tool_result_truncation longToolResult).2.1
     (by rw [longToolResult_length]; decide)).1,
   (tool_result_truncation "done").2.2 neverTool _ rfl⟩

/-! ## C3: LLM failure inside the loop -/

/-- The messages appended by the `k` loop iterations starting at request
index `callIdx`, when each of those iterations got a tool-call response. -/
def appendedRounds (llm : LLMOracle) (tool : ToolOracle) :
    Nat → Nat → List ChatMessage
  | _, 0 => []
  | callIdx, k + 1 =>
    (match llm callIdx with
      | Except.ok response => toolRoundMessages tool response
      | Except.error _ => []) ++ appendedRounds llm tool (callIdx + 1) k

theorem chatLoop_error_after (llm : LLMOracle) (tool : ToolOracle) (e : String) :
    ∀ (k callIdx fuel : Nat) (messages : List ChatMessage), k < fuel →
      (∀ i, i < k → llmGivesToolCalls llm (callIdx + i)) →
      llm (callIdx + k) = Except.error e →
      chatLoop llm tool callIdx fuel messages =
        { reply := llmFailureReply e
          history := messages ++ appendedRounds llm tool callIdx k
          llmCalls := k + 1 } := by
  intro k
  induction k with
  | zero =>
    intro callIdx fuel messages hk _ hfail
    obtain ⟨fuel', rfl⟩ : ∃ fuel', fuel = fuel' + 1 :=
      ⟨fuel - 1, by omega⟩
    rw [chatLoop_step_error llm tool callIdx fuel' messages e (by simpa using hfail)]
    simp [appendedRounds]
  | succ n ih =>
    intro callIdx fuel messages hk hall hfail
    obtain ⟨fuel', rfl⟩ : ∃ fuel', fuel = fuel' + 1 :=
      ⟨fuel - 1, by omega⟩
    obtain ⟨response, h, htc⟩ := by simpa using hall 0 (by omega)
    rw [chatLoop_step_toolcalls llm tool callIdx fuel' messages response h htc]
    rw [ih (callIdx + 1) fuel' (messages ++ toolRoundMessages tool response)
      (by omega)
      (fun i hi => by
        have := hall (i + 1) (by omega)
        simpa [Nat.add_assoc, Nat.add_comm 1 i] using this)
      (by
        have : callIdx + 1 + n = callIdx + (n + 1) := by omega
        rw [this]
        exact hfail)]
    simp [appendedRounds, h]

/-- C3: when the `k`-th LLM request of an invocation throws (after `k`
tool-call rounds), `Agent.chat` returns the failure text instead of raising,
and the Conversation Store still receives the history accumulated up to the
failure point (system seed, user message, and all completed tool rounds). -/
theorem chat_llm_failure_preserves_progress (hostUserEnv hostHomeEnv : Option String)
    (memoryContext : String) (llm : LLMOracle) (tool : ToolOracle)
    (store : ConversationStore) (conversationId userMessage : String)
    (k : Nat) (e : String) (hk : k < 10)
    (hprev : ∀ i, i < k → llmGivesToolCalls llm i)
    (hfail : llm k = Except.error e) :
    (Agent.chat hostUserEnv hostHomeEnv memoryContext llm tool store
      conversationId userMessage).reply = llmFailureReply e ∧
    (Agent.chat hostUserEnv hostHomeEnv memoryContext llm tool store
      conversationId userMessage).store conversationId =
      some (initialMessages hostUserEnv hostHomeEnv memoryContext
        ((store conversationId).getD []) userMessage ++
        appendedRounds llm tool 0 k) ∧
    (Agent.chat hostUserEnv hostHomeEnv memoryContext llm tool store
      conversationId userMessage).llmCalls = k + 1 := by
  have hloop := chatLoop_error_after llm tool e k 0 10
    (initialMessages hostUserEnv hostHomeEnv memoryContext
      ((store conversationId).getD []) userMessage)
    hk (fun i hi => by simpa using hprev i hi) (by simpa using hfail)
  unfold Agent.chat
  simp only []
  rw [hloop]
  refine ⟨rfl, ?_, rfl⟩
  simp [setConversation]

def failingLlm : LLMOracle := fun _ => Except.error "connection refused"

theorem chat_llm_failure_preserves_progress_witness :
    (Agent.chat none none "" failingLlm neverTool emptyStore "conv" "hi").reply =
      llmFailureReply "connection refused" ∧
    (Agent.chat none none "" failingLlm neverTool emptyStore "conv" "hi").store "conv" =
      some (initialMessages none none "" ((emptyStore "conv").getD []) "hi" ++
        appendedRounds failingLlm neverTool 0 0) ∧
    (Agent.chat none none "" failingLlm neverTool emptyStore "conv" "hi").llmCalls = 0 + 1 :=
  chat_llm_failure_preserves_progress none none "" failingLlm neverTool
    emptyStore "conv" "hi" 0 "connection refused" (by decide)
    (fun i hi => absurd hi (by omega)) rfl

/-! ## C10: exactly one system message, at index 0 -/

theorem countSystem_append (l1 l2 : List ChatMessage) :
    countSystem (l1 ++ l2) = countSystem l1 + countSystem l2 := by
  simp [countSystem, List.filter_append]

theorem countSystem_eq_zero {l : List ChatMessage}
    (h : ∀ m ∈ l, m.role ≠ Role.system) : countSystem l = 0 := by
  unfold countSystem
  rw [List.length_eq_zero, List.filter_eq_nil_iff]
  intro m hm
  simpa using h m hm

/-- A well-formed stored history: exactly one system message, at index 0. -/
def GoodHistory (h : List ChatMessage) : Prop :=
  countSystem h = 1 ∧ h.head?.map ChatMessage.role = some Role.system

def GoodStore (store : ConversationStore) : Prop :=
  ∀ cid h, store cid = some h → GoodHistory h

theorem goodHistory_append {l rest : List ChatMessage} (hl : GoodHistory l)
    (hrest : ∀ m ∈ rest, m.role ≠ Role.system) : GoodHistory (l ++ rest) := by
  obtain ⟨hcount, hhead⟩ := hl
  constructor
  · rw [countSystem_append, hcount, countSystem_eq_zero hrest]
  · cases l with
    | nil => simp at hhead
    | cons a t => simpa using hhead

/-- The loop only ever appends assistant and tool messages. -/
theorem chatLoop_history_extends (llm : LLMOracle) (tool : ToolOracle) :
    ∀ (fuel callIdx : Nat) (messages : List ChatMessage), ∃ rest,
      (chatLoop llm tool callIdx fuel messages).history = messages ++ rest ∧
      ∀ m ∈ rest, m.role ≠ Role.system := by
  intro fuel
  induction fuel with
  | zero =>
    intro callIdx messages
    exact ⟨[], by simp [chatLoop], by simp⟩
  | succ n ih =>
    intro callIdx messages
    cases h : llm callIdx with
    | error e =>
      refine ⟨[], ?_, by simp⟩
      rw [chatLoop_step_error llm tool callIdx n messages e h]
      simp
    | ok response =>
      by_cases htc : response.tool_calls.length > 0
      · obtain ⟨rest, hrest, hroles⟩ :=
          ih (callIdx + 1) (messages ++ toolRoundMessages tool response)
        refine ⟨toolRoundMessages tool response ++ rest, ?_, ?_⟩
        · rw [chatLoop_step_toolcalls llm tool callIdx n messages response h htc]
          simpa [List.append_assoc] using hrest
        · intro m hm
          rcases List.mem_append.mp hm with hm | hm
          · unfold toolRoundMessages at hm
            rcases List.mem_cons.mp hm with rfl | hm
            · simp [assistantToolCallMessage]
            · obtain ⟨tc, _, rfl⟩ := List.mem_map.mp hm
              simp [toolResponseMessage]
          · exact hroles m hm
      · refine ⟨[{ role := Role.assistant, content := finalAssistantText response }], ?_, by simp⟩
        rw [chatLoop_step_final llm tool callIdx n messages response h htc]

theorem initialMessages_good (hostUserEnv hostHomeEnv : Option String)
    (memoryContext : String) (stored : List ChatMessage) (userMessage : String)
    (hstored : stored = [] ∨ GoodHistory stored) :
    GoodHistory (initialMessages hostUserEnv hostHomeEnv memoryContext stored
      userMessage) := by
  rcases hstored with rfl | hgood
  · constructor
    · simp [initialMessages, countSystem]
    · simp [initialMessages]
  · have hne : stored ≠ [] := by
      intro h
      rw [h] at hgood
      simp [GoodHistory] at hgood
    unfold initialMessages
    rw [if_neg (by simpa [List.length_eq_zero] using hne)]
    exact goodHistory_append hgood (by simp)

theorem chat_preserves_goodStore (hostUserEnv hostHomeEnv : Option String)
    (memoryContext : String) (llm : LLMOracle) (tool : ToolOracle)
    (store : ConversationStore) (conversationId userMessage : String)
    (hstore : GoodStore store) :
    GoodStore (Agent.chat hostUserEnv hostHomeEnv memoryContext llm tool store
      conversationId userMessage).store := by
  intro cid h
  unfold Agent.chat
  simp only [setConversation]
  by_cases hcid : cid = conversationId
  · rw [if_pos hcid]
    intro heq
    obtain ⟨rest, hrest, hroles⟩ := chatLoop_history_extends llm tool 10 0
      (initialMessages hostUserEnv hostHomeEnv memoryContext
        ((store conversationId).getD []) userMessage)
    rw [hrest] at heq
    have hinit : GoodHistory (initialMessages hostUserEnv hostHomeEnv
        memoryContext ((store conversationId).getD []) userMessage) := by
      apply initialMessages_good
      cases hsc : store conversationId with
      | none => left; rfl
      | some h0 => right; simpa using hstore conversationId h0 hsc
    have := goodHistory_append hinit hroles
    rwa [← Option.some_inj.mp heq]
  · rw [if_neg hcid]
    exact fun heq => hstore cid h heq

theorem goodStore_applyOps (ops : List AgentOp) :
    ∀ store, GoodStore store → GoodStore (ops.foldl applyOp store) := by
  induction ops with
  | nil => intro store h; exact h
  | cons op rest ih =>
    intro store h
    apply ih
    cases op with
    | chat hu hh mc llm tool cid msg =>
      exact chat_preserves_goodStore hu hh mc llm tool store cid msg h
    | clear cid =>
      intro cid' h'
      simp only [applyOp, clearConversationStore]
      by_cases hc : cid' = cid
      · rw [if_pos hc]; intro heq; cases heq
      · rw [if_neg hc]; exact fun heq => h cid' h' heq

/-- C10: after any sequence of `chat` and `clearConversation` operations
starting from the empty store, every stored conversation history contains
exactly one system message, and it sits at index 0. -/
theorem conversation_single_system_message (ops : List AgentOp)
    (conversationId : String) (history : List ChatMessage)
    (h : applyOps ops conversationId = some history) :
    countSystem history = 1 ∧
    history.head?.map ChatMessage.role = some Role.system := by
  have hempty : GoodStore emptyStore := by
    intro cid h' heq
    cases heq
  exact goodStore_applyOps ops emptyStore hempty conversationId history h

def c10Ops : List AgentOp :=
  [AgentOp.chat none none "" (fun _ => Except.ok { content := "4" }) neverTool
    "conv" "What is 2 + 2?"]

def c10History : List ChatMessage := (applyOps c10Ops "conv").getD []

theorem conversation_single_system_message_witness :
    countSystem c10History = 1 ∧
    c10History.head?.map ChatMessage.role = some Role.system :=
  conversation_single_system_message c10Ops "conv" c10History rfl

/-! ## C4: reconnect backoff and attempt-counter reset -/

theorem onConnectionUpdate_closed_reconnect (st : WAConnState)
    (statusCode : Option Nat) (hstop : st.stopping = false)
    (hsc : statusCode ≠ some DisconnectReason.loggedOut)
    (hlt : st.reconnectAttempts < maxReconnectAttempts) :
    onConnectionUpdate st (ConnectionEvent.closed statusCode) =
      ({ connected := false, reconnectAttempts := st.reconnectAttempts + 1
         stopping := false },
       ReconnectAction.waitAndReconnect
         (min (1000 * 2 ^ (st.reconnectAttempts + 1)) 60000)) := by
  simp only [onConnectionUpdate]
  rw [hstop]
  simp [hsc, hlt]

theorem applyCloses_attempts (statusCode : Option Nat)
    (hsc : statusCode ≠ some DisconnectReason.loggedOut) :
    ∀ n, n ≤ maxReconnectAttempts →
      (applyCloses statusCode freshOpenState n).reconnectAttempts = n ∧
      (applyCloses statusCode freshOpenState n).stopping = false := by
  intro n
  induction n with
  | zero => intro _; exact ⟨rfl, rfl⟩
  | succ m ih =>
    intro hle
    obtain ⟨hatt, hstop⟩ := ih (by omega)
    have hstep := onConnectionUpdate_closed_reconnect
      (applyCloses statusCode freshOpenState m) statusCode hstop hsc
      (by rw [hatt]; omega)
    unfold applyCloses
    rw [hstep]
    constructor
    · show (applyCloses statusCode freshOpenState m).reconnectAttempts + 1 = m + 1
      rw [hatt]
    · rfl

/-- C4: after the N-th consecutive connection failure (N not yet at the
attempt cap), the close handler schedules a reconnect in exactly
`min(1000 * 2^N, 60000)` ms; and the attempt counter is zeroed exactly by
the open transition — an open event always resets it, and no close event
ever turns a non-zero counter into zero. -/
theorem reconnect_backoff_and_reset (statusCode : Option Nat) (N : Nat)
    (hsc : statusCode ≠ some DisconnectReason.loggedOut)
    (hN1 : 1 ≤ N) (hNmax : N < maxReconnectAttempts) :
    (onConnectionUpdate (applyCloses statusCode freshOpenState (N - 1))
        (ConnectionEvent.closed statusCode)).2 =
      ReconnectAction.waitAndReconnect (min (1000 * 2 ^ N) 60000) ∧
    (∀ st : WAConnState,
      (onConnectionUpdate st ConnectionEvent.opened).1.reconnectAttempts = 0) ∧
    (∀ (st : WAConnState) (sc : Option Nat), st.reconnectAttempts ≠ 0 →
      (onConnectionUpdate st (ConnectionEvent.closed sc)).1.reconnectAttempts ≠ 0) := by
  refine ⟨?_, fun st => rfl, ?_⟩
  · obtain ⟨hatt, hstop⟩ :=
      applyCloses_attempts statusCode hsc (N - 1) (by omega)
    rw [onConnectionUpdate_closed_reconnect _ statusCode hstop hsc
      (by rw [hatt]; omega)]
    show ReconnectAction.waitAndReconnect _ = ReconnectAction.waitAndReconnect _
    rw [hatt]
    have hN : N - 1 + 1 = N := by omega
    rw [hN]
  · intro st sc hne
    simp only [onConnectionUpdate]
    split_ifs <;> simp_all

theorem reconnect_backoff_and_reset_witness :
    (onConnectionUpdate (applyCloses (some 428) freshOpenState (3 - 1))
        (ConnectionEvent.closed (some 428))).2 =
      ReconnectAction.waitAndReconnect (min (1000 * 2 ^ 3) 60000) ∧
    (∀ st : WAConnState,
      (onConnectionUpdate st ConnectionEvent.opened).1.reconnectAttempts = 0) ∧
    (∀ (st : WAConnState) (sc : Option Nat), st.reconnectAttempts ≠ 0 →
      (onConnectionUpdate st (ConnectionEvent.closed sc)).1.reconnectAttempts ≠ 0) :=
  reconnect_backoff_and_reset (some 428) 3 (by decide) (by decide) (by decide)

/-! ## Branch lemmas for handleIncomingMessage -/

theorem handleIncomingMessage_noContent (config : WASessionConfig)
    (hasHandler socketPresent presenceOk : Bool)
    (handlerResult : Except String String)
    (sendResult : Except String (Option String))
    (st : WAMessagingState) (msg : WAMessageInfo) (key : WAMessageKey)
    (hkey : msg.key = some key) (hmsg : msg.message = none) :
    handleIncomingMessage config hasHandler socketPresent presenceOk
        handlerResult sendResult st msg =
      (st, HandleOutcome.skippedMissingFields) := by
  simp [handleIncomingMessage, hkey, hmsg]

theorem handleIncomingMessage_noJid (config : WASessionConfig)
    (hasHandler socketPresent presenceOk : Bool)
    (handlerResult : Except String String)
    (sendResult : Except String (Option String))
    (st : WAMessagingState) (msg : WAMessageInfo) (key : WAMessageKey)
    (content : WAMessageContent) (hkey : msg.key = some key)
    (hmsg : msg.message = some content) (hjid : key.remoteJid = none) :
    handleIncomingMessage config hasHandler socketPresent presenceOk
        handlerResult sendResult st msg =
      (st, HandleOutcome.skippedMissingFields) := by
  simp [handleIncomingMessage, hkey, hmsg, hjid]

theorem handleIncomingMessage_echo (config : WASessionConfig)
    (hasHandler socketPresent presenceOk : Bool)
    (handlerResult : Except String String)
    (sendResult : Except String (Option String))
    (st : WAMessagingState) (msg : WAMessageInfo) (key : WAMessageKey)
    (content : WAMessageContent) (jid : String) (hkey : msg.key = some key)
    (hmsg : msg.message = some content) (hjid : key.remoteJid = some jid)
    (hecho : isBotEcho st key = true) :
    handleIncomingMessage config hasHandler socketPresent presenceOk
        handlerResult sendResult st msg =
      ({ st with botSentMessages := jsSetDelete st.botSentMessages (key.id.getD "") },
        HandleOutcome.skippedBotEcho) := by
  simp [handleIncomingMessage, hkey, hmsg, hjid, hecho]

theorem handleIncomingMessage_duplicate (config : WASessionConfig)
    (hasHandler socketPresent presenceOk : Bool)
    (handlerResult : Except String String)
    (sendResult : Except String (Option String))
    (st : WAMessagingState) (msg : WAMessageInfo) (key : WAMessageKey)
    (content : WAMessageContent) (jid msgId : String) (hkey : msg.key = some key)
    (hmsg : msg.message = some content) (hjid : key.remoteJid = some jid)
    (hecho : isBotEcho st key = false) (hid : key.id = some msgId)
    (hmem : msgId ∈ st.processedMessages) :
    handleIncomingMessage config hasHandler socketPresent presenceOk
        handlerResult sendResult st msg =
      (st, HandleOutcome.skippedDuplicate) := by
  simp [handleIncomingMessage, hkey, hmsg, hjid, hecho, hid, hmem]

/-! ## C5: redelivered inbound ids never reach the handler again -/

/-- C5: when an inbound message's id is already in `processedMessages`, a
second delivery of it never invokes the orchestration-loop handler, and the
id stays recorded. -/
theorem duplicate_inbound_not_reprocessed (config : WASessionConfig)
    (hasHandler socketPresent presenceOk : Bool)
    (handlerResult : Except String String)
    (sendResult : Except String (Option String))
    (st : WAMessagingState) (msg : WAMessageInfo) (key : WAMessageKey)
    (msgId : String) (hkey : msg.key = some key) (hid : key.id = some msgId)
    (hmem : msgId ∈ st.processedMessages) :
    ((handleIncomingMessage config hasHandler socketPresent presenceOk
        handlerResult sendResult st msg).2).invokedHandler = false ∧
    (handleIncomingMessage config hasHandler socketPresent presenceOk
        handlerResult sendResult st msg).1.processedMessages =
      st.processedMessages := by
  cases hmsg : msg.message with
  | none =>
    rw [handleIncomingMessage_noContent config hasHandler socketPresent
      presenceOk handlerResult sendResult st msg key hkey hmsg]
    exact ⟨rfl, rfl⟩
  | some content =>
    cases hjid : key.remoteJid with
    | none =>
      rw [handleIncomingMessage_noJid config hasHandler socketPresent
        presenceOk handlerResult sendResult st msg key content hkey hmsg hjid]
      exact ⟨rfl, rfl⟩
    | some jid =>
      cases hecho : isBotEcho st key with
      | true =>
        rw [handleIncomingMessage_echo config hasHandler socketPresent
          presenceOk handlerResult sendResult st msg key content jid hkey hmsg
          hjid hecho]
        exact ⟨rfl, rfl⟩
      | false =>
        rw [handleIncomingMessage_duplicate config hasHandler socketPresent
          presenceOk handlerResult sendResult st msg key content jid msgId hkey
          hmsg hjid hecho hid hmem]
        exact ⟨rfl, rfl⟩

def c5State : WAMessagingState :=
  { processedMessages := ["MSG-1"], botSentMessages := [] }

def c5Message : WAMessageInfo :=
  { key := some { remoteJid := some "12345@s.whatsapp.net", fromMe := false
                  id := some "MSG-1" }
    message := some { conversation := some "hello"
                      extendedTextMessageText := none
                      imageMessageCaption := none
                      videoMessageCaption := none }
    pushName := none }

theorem duplicate_inbound_not_reprocessed_witness :
    ((handleIncomingMessage { allowedSenders := none, replyOnlyToDirectMessages := false }
        true true true (Except.ok "reply") (Except.ok none)
        c5State c5Message).2).invokedHandler = false ∧
    (handleIncomingMessage { allowedSenders := none, replyOnlyToDirectMessages := false }
        true true true (Except.ok "reply") (Except.ok none)
        c5State c5Message).1.processedMessages = c5State.processedMessages :=
  duplicate_inbound_not_reprocessed _ true true true (Except.ok "reply")
    (Except.ok none) c5State c5Message _ "MSG-1" rfl rfl (by decide)

/-! ## C6: self-sent echoes are dropped and consumed exactly once -/

/-- C6: an inbound message matching a previously self-sent id is dropped
before reaching the handler, and the record is consumed: the id is erased
from the self-sent set and no longer suppresses anything, while the
processed set is untouched. -/
theorem self_echo_consumed_once (config : WASessionConfig)
    (hasHandler socketPresent presenceOk : Bool)
    (handlerResult : Except String String)
    (sendResult : Except String (Option String))
    (st : WAMessagingState) (msg : WAMessageInfo) (key : WAMessageKey)
    (content : WAMessageContent) (jid msgId : String)
    (hkey : msg.key = some key) (hmsg : msg.message = some content)
    (hjid : key.remoteJid = some jid) (hfromMe : key.fromMe = true)
    (hid : key.id = some msgId) (hmem : msgId ∈ st.botSentMessages)
    (hnd : st.botSentMessages.Nodup) :
    (handleIncomingMessage config hasHandler socketPresent presenceOk
        handlerResult sendResult st msg).2 = HandleOutcome.skippedBotEcho ∧
    ((handleIncomingMessage config hasHandler socketPresent presenceOk
        handlerResult sendResult st msg).2).invokedHandler = false ∧
    (handleIncomingMessage config hasHandler socketPresent presenceOk
        handlerResult sendResult st msg).1.botSentMessages =
      st.botSentMessages.erase msgId ∧
    msgId ∉ (handleIncomingMessage config hasHandler socketPresent presenceOk
        handlerResult sendResult st msg).1.botSentMessages ∧
    (handleIncomingMessage config hasHandler socketPresent presenceOk
        handlerResult sendResult st msg).1.processedMessages =
      st.processedMessages := by
  have hecho : isBotEcho st key = true := by
    unfold isBotEcho
    rw [hfromMe, hid]
    simpa using hmem
  rw [handleIncomingMessage_echo config hasHandler socketPresent presenceOk
    handlerResult sendResult st msg key content jid hkey hmsg hjid hecho]
  rw [hid]
  refine ⟨rfl, rfl, rfl, ?_, rfl⟩
  show msgId ∉ jsSetDelete st.botSentMessages ((some msgId).getD "")
  simp only [Option.getD_some, jsSetDelete]
  intro hcontra
  have := (List.Nodup.mem_erase_iff hnd).mp hcontra
  exact this.1 rfl

def c6State : WAMessagingState :=
  { processedMessages := [], botSentMessages := ["SENT-7"] }

def c6Message : WAMessageInfo :=
  { key := some { remoteJid := some "12345@s.whatsapp.net", fromMe := true
                  id := some "SENT-7" }
    message := some { conversation := some "echo"
                      extendedTextMessageText := none
                      imageMessageCaption := none
                      videoMessageCaption := none }
    pushName := none }

theorem self_echo_consumed_once_witness :
    (handleIncomingMessage { allowedSenders := none, replyOnlyToDirectMessages := false }
        true true true (Except.ok "reply") (Except.ok none)
        c6State c6Message).2 = HandleOutcome.skippedBotEcho ∧
    ((handleIncomingMessage { allowedSenders := none, replyOnlyToDirectMessages := false }
        true true true (Except.ok "reply") (Except.ok none)
        c6State c6Message).2).invokedHandler = false ∧
    (handleIncomingMessage { allowedSenders := none, replyOnlyToDirectMessages := false }
        true true true (Except.ok "reply") (Except.ok none)
        c6State c6Message).1.botSentMessages = c6State.botSentMessages.erase "SENT-7" ∧
    "SENT-7" ∉ (handleIncomingMessage { allowedSenders := none, replyOnlyToDirectMessages := false }
        true true true (Except.ok "reply") (Except.ok none)
        c6State c6Message).1.botSentMessages ∧
    (handleIncomingMessage { allowedSenders := none, replyOnlyToDirectMessages := false }
        true true true (Except.ok "reply") (Except.ok none)
        c6State c6Message).1.processedMessages = c6State.processedMessages :=
  self_echo_consumed_once _ true true true (Except.ok "reply") (Except.ok none)
    c6State c6Message _ _ "12345@s.whatsapp.net" "SENT-7"
    rfl rfl rfl rfl rfl (by decide) (by decide)

/-! ## C7: what the Conversation Store records for a truncated tool result -/

/-- A chat turn whose first LLM response asks for one tool call and whose
second response is final: the stored history is the seed, the assistant
message recording the call, the tool message holding the truncated result,
and the final assistant message. -/
theorem chat_single_toolcall_store (hostUserEnv hostHomeEnv : Option String)
    (memoryContext : String) (llm : LLMOracle) (tool : ToolOracle)
    (store : ConversationStore) (conversationId userMessage : String)
    (tc : ToolCall) (raw c0 c1 : String)
    (h0 : llm 0 = Except.ok { content := c0, tool_calls := [tc] })
    (h1 : llm 1 = Except.ok { content := c1, tool_calls := [] })
    (hc1 : c1 ≠ "") (htool : tool tc = Except.ok raw) :
    (Agent.chat hostUserEnv hostHomeEnv memoryContext llm tool store
        conversationId userMessage).store conversationId =
      some (initialMessages hostUserEnv hostHomeEnv memoryContext
          ((store conversationId).getD []) userMessage ++
        [assistantToolCallMessage { content := c0, tool_calls := [tc] },
         { role := Role.tool, content := truncateResult raw
           tool_call_id := some tc.id },
         { role := Role.assistant, content := c1 }]) := by
  unfold Agent.chat
  simp only []
  rw [show (10 : Nat) = 9 + 1 from rfl]
  rw [chatLoop_step_toolcalls llm tool 0 9 _ _ h0 (by simp)]
  rw [show (9 : Nat) = 8 + 1 from rfl]
  rw [chatLoop_step_final llm tool 1 8 _ _ h1 (by simp)]
  simp only [setConversation, if_true]
  rw [List.append_assoc]
  simp only [toolRoundMessages, toolResponseMessage, renderToolOutcome,
    assistantToolCallMessage, finalAssistantText, htool, List.map_cons,
    List.map_nil, List.cons_append, List.nil_append]
  rw [if_neg hc1]

def c7Call : ToolCall := { id := "call-1", name := "bash", arguments := "ls" }

def c7Llm : LLMOracle := fun i =>
  if i = 0 then Except.ok { content := "", tool_calls := [c7Call] }
  else Except.ok { content := "done", tool_calls := [] }

def c7BigResult : String := String.mk (List.replicate 4001 'x')

def c7Tool : ToolOracle := fun _ => Except.ok c7BigResult

/-- The history the Conversation Store holds after a chat turn in which the
tool produced the 4001-character result. -/
def c7StoredHistory : List ChatMessage :=
  ((Agent.chat none none "" c7Llm c7Tool emptyStore "conv" "list files").store
    "conv").getD []

theorem c7BigResult_length : c7BigResult.length = 4001 := by
  show (List.replicate 4001 'x').length = 4001
  rw [List.length_replicate]

theorem truncate_c7_length : (truncateResult c7BigResult).length = 4033 := by
  unfold truncateResult
  rw [if_pos (by rw [c7BigResult_length]; decide)]
  rw [String.length_append, String.length_append, String.length_append,
    stringTake_length, c7BigResult_length]
  decide

/-- Counterexample to C7: in the concrete run where the single tool call
returns 4,001 characters, the tool message recorded in the Conversation
Store carries the truncated text, which differs from the full result — the
store does not retain the untruncated text. -/
theorem store_full_result_counterexample :
    (c7StoredHistory.filter (fun m => m.role == Role.tool)).map
        ChatMessage.content = [truncateResult c7BigResult] ∧
    truncateResult c7BigResult ≠ c7BigResult := by
  have hstore := chat_single_toolcall_store none none "" c7Llm c7Tool
    emptyStore "conv" "list files" c7Call c7BigResult "" "done" rfl rfl
    (by decide) rfl
  constructor
  · show ((((Agent.chat none none "" c7Llm c7Tool emptyStore "conv"
        "list files").store "conv").getD []).filter
        (fun m => m.role == Role.tool)).map ChatMessage.content =
      [truncateResult c7BigResult]
    rw [hstore]
    simp [initialMessages, emptyStore, assistantToolCallMessage]
  · intro h
    have hlen := congrArg String.length h
    rw [truncate_c7_length, c7BigResult_length] at hlen
    exact absurd hlen (by decide)

/-- C7 (amended): truncation applies to the tool message itself, which is
both fed to the next LLM call and recorded as-is in the Conversation Store:
the stored tool message holds the truncated text (first 4,000 characters
plus omission marker), not the full result. -/
theorem store_records_truncated_result (hostUserEnv hostHomeEnv : Option String)
    (memoryContext : String) (llm : LLMOracle) (tool : ToolOracle)
    (store : ConversationStore) (conversationId userMessage : String)
    (tc : ToolCall) (raw c0 c1 : String)
    (h0 : llm 0 = Except.ok { content := c0, tool_calls := [tc] })
    (h1 : llm 1 = Except.ok { content := c1, tool_calls := [] })
    (hc1 : c1 ≠ "") (htool : tool tc = Except.ok raw)
    (hlen : raw.length > MAX_TOOL_RESULT) :
    (Agent.chat hostUserEnv hostHomeEnv memoryContext llm tool store
        conversationId userMessage).store conversationId =
      some (initialMessages hostUserEnv hostHomeEnv memoryContext
          ((store conversationId).getD []) userMessage ++
        [assistantToolCallMessage { content := c0, tool_calls := [tc] },
         { role := Role.tool, content := truncateResult raw
           tool_call_id := some tc.id },
         { role := Role.assistant, content := c1 }]) ∧
    truncateResult raw =
      stringTake raw MAX_TOOL_RESULT ++
        "\n\n[...truncated, " ++ toString (raw.length - MAX_TOOL_RESULT) ++
        " chars omitted]" := by
  constructor
  · exact chat_single_toolcall_store hostUserEnv hostHomeEnv memoryContext llm
      tool store conversationId userMessage tc raw c0 c1 h0 h1 hc1 htool
  · unfold truncateResult
    rw [if_pos hlen]

theorem store_records_truncated_result_witness :
    (Agent.chat none none "" c7Llm c7Tool emptyStore "conv" "list files").store
        "conv" =
      some (initialMessages none none "" ((emptyStore "conv").getD [])
          "list files" ++
        [assistantToolCallMessage { content := "", tool_calls := [c7Call] },
         { role := Role.tool, content := truncateResult c7BigResult
           tool_call_id := some c7Call.id },
         { role := Role.assistant, content := "done" }]) ∧
    truncateResult c7BigResult =
      stringTake c7BigResult MAX_TOOL_RESULT ++
        "\n\n[...truncated, " ++
        toString (c7BigResult.length - MAX_TOOL_RESULT) ++
        " chars omitted]" :=
  store_records_truncated_result none none "" c7Llm c7Tool emptyStore "conv"
    "list files" c7Call c7BigResult "" "done" rfl rfl (by decide) rfl
    (by rw [c7BigResult_length]; decide)

/-! ## C8: boundedness of the two dedup sets -/

def floodConfig : WASessionConfig :=
  { allowedSenders := none, replyOnlyToDirectMessages := false }

/-- Pairwise-distinct inbound ids (distinguished by length). -/
def inboundFloodId (n : Nat) : String := String.mk (List.replicate n 'i')

/-- Pairwise-distinct sent-reply ids (distinguished by length). -/
def sentFloodId (n : Nat) : String := String.mk (List.replicate n 's')

def floodMessage (n : Nat) : WAMessageInfo :=
  { key := some { remoteJid := some "12345@s.whatsapp.net", fromMe := false
                  id := some (inboundFloodId n) }
    message := some { conversation := some "hello"
                      extendedTextMessageText := none
                      imageMessageCaption := none
                      videoMessageCaption := none }
    pushName := none }

theorem jsTrim_hello : jsTrim "hello" = "hello" := rfl

theorem stripJid_flood : stripJidServer "12345@s.whatsapp.net" = "12345" := rfl

theorem inboundFloodId_length (n : Nat) : (inboundFloodId n).length = n := by
  show (List.replicate n 'i').length = n
  rw [List.length_replicate]

theorem sentFloodId_length (n : Nat) : (sentFloodId n).length = n := by
  show (List.replicate n 's').length = n
  rw [List.length_replicate]

theorem floodStep (st : WAMessagingState) (n : Nat)
    (hmem : inboundFloodId n ∉ st.processedMessages)
    (hsent : sentFloodId n ∉ st.botSentMessages) :
    handleIncomingMessage floodConfig true true true (Except.ok "reply")
        (Except.ok (some (sentFloodId n))) st (floodMessage n) =
      ({ processedMessages :=
           trimProcessed (st.processedMessages ++ [inboundFloodId n])
         botSentMessages := st.botSentMessages ++ [sentFloodId n] },
       HandleOutcome.handlerInvoked "12345" "hello" (some (sentFloodId n))) := by
  simp [handleIncomingMessage, floodMessage, floodConfig, isBotEcho,
    senderBlocked, extractText, firstTruthy, jsSetAdd, jsTrim_hello,
    stripJid_flood, hmem, hsent]

/-- A session handling one fresh inbound message per step, each step sending
a reply whose id is recorded in the self-sent set and never echoed back. -/
def floodState : Nat → WAMessagingState
  | 0 => { processedMessages := [], botSentMessages := [] }
  | n + 1 =>
    (handleIncomingMessage floodConfig true true true (Except.ok "reply")
      (Except.ok (some (sentFloodId (n + 1)))) (floodState n)
      (floodMessage (n + 1))).1

theorem trimProcessed_subset (l : List String) :
    ∀ x ∈ trimProcessed l, x ∈ l := by
  intro x hx
  unfold trimProcessed at hx
  split_ifs at hx with h
  · exact List.drop_subset _ _ hx
  · exact hx

theorem floodState_spec : ∀ n : Nat,
    (∀ x ∈ (floodState n).processedMessages, x.length ≤ n) ∧
    (∀ x ∈ (floodState n).botSentMessages, x.length ≤ n) ∧
    (floodState n).botSentMessages.length = n := by
  intro n
  induction n with
  | zero =>
    refine ⟨?_, ?_, rfl⟩ <;> intro x hx <;> simp [floodState] at hx
  | succ m ih =>
    obtain ⟨hproc, hsent, hlen⟩ := ih
    have hmem : inboundFloodId (m + 1) ∉ (floodState m).processedMessages := by
      intro hx
      have := hproc _ hx
      rw [inboundFloodId_length] at this
      omega
    have hsmem : sentFloodId (m + 1) ∉ (floodState m).botSentMessages := by
      intro hx
      have := hsent _ hx
      rw [sentFloodId_length] at this
      omega
    have hunfold : floodState (m + 1) =
        (handleIncomingMessage floodConfig true true true (Except.ok "reply")
          (Except.ok (some (sentFloodId (m + 1)))) (floodState m)
          (floodMessage (m + 1))).1 := rfl
    rw [hunfold, floodStep (floodState m) (m + 1) hmem hsmem]
    refine ⟨?_, ?_, ?_⟩
    · intro x hx
      have hx' := trimProcessed_subset _ x hx
      rcases List.mem_append.mp hx' with h | h
      · exact Nat.le_succ_of_le (hproc x h)
      · rw [List.mem_singleton] at h
        rw [h, inboundFloodId_length]
    · intro x hx
      rcases List.mem_append.mp hx with h | h
      · exact Nat.le_succ_of_le (hsent x h)
      · rw [List.mem_singleton] at h
        rw [h, sentFloodId_length]
    · show ((floodState m).botSentMessages ++ [sentFloodId (m + 1)]).length = m + 1
      rw [List.length_append, hlen]
      rfl

/-- Counterexample to C8: the claim holds for `processedMessages` but not for
the self-sent set — in the concrete flood run (one handled message and one
sent reply per step, no echoes), the self-sent set reaches 1001 entries with
no eviction ever, and its size is unbounded over the run. -/
theorem dedup_sets_bounded_counterexample :
    (floodState 1001).botSentMessages.length = 1001 ∧
    ¬ ∃ bound : Nat, ∀ n : Nat,
        (floodState n).botSentMessages.length ≤ bound := by
  refine ⟨(floodState_spec 1001).2.2, ?_⟩
  rintro ⟨bound, hb⟩
  have h1 := hb (bound + 1)
  rw [(floodState_spec (bound + 1)).2.2] at h1
  omega

theorem jsSetAdd_length_le (l : List String) (x : String) :
    (jsSetAdd l x).length ≤ l.length + 1 := by
  unfold jsSetAdd
  split_ifs
  · omega
  · rw [List.length_append]
    simp

theorem trimProcessed_length_le (l : List String) (h : l.length ≤ 1001) :
    (trimProcessed l).length ≤ 1000 := by
  unfold trimProcessed
  split_ifs with h1
  · rw [List.length_drop]
    omega
  · omega

theorem handle_processed_cases (config : WASessionConfig)
    (hasHandler socketPresent presenceOk : Bool)
    (handlerResult : Except String String)
    (sendResult : Except String (Option String))
    (st : WAMessagingState) (msg : WAMessageInfo) :
    (handleIncomingMessage config hasHandler socketPresent presenceOk
        handlerResult sendResult st msg).1.processedMessages =
      st.processedMessages ∨
    ∃ i, (handleIncomingMessage config hasHandler socketPresent presenceOk
        handlerResult sendResult st msg).1.processedMessages =
      trimProcessed (jsSetAdd st.processedMessages i) := by
  obtain ⟨mkey, mmsg, mpush⟩ := msg
  cases mkey with
  | none => left; rfl
  | some key =>
    cases mmsg with
    | none => left; rfl
    | some content =>
      cases hjid : key.remoteJid with
      | none => left; simp [handleIncomingMessage, hjid]
      | some jid =>
        by_cases hecho : isBotEcho st key = true
        · left; simp [handleIncomingMessage, hjid, hecho]
        · cases hid : key.id with
          | none =>
            left
            simp [handleIncomingMessage, hjid, hecho, hid]
          | some msgId =>
            by_cases hmem : msgId ∈ st.processedMessages
            · left
              simp [handleIncomingMessage, hjid, hecho, hid, hmem]
            · right
              refine ⟨msgId, ?_⟩
              have hecho' : isBotEcho st key = false := by
                cases hb : isBotEcho st key
                · rfl
                · exact absurd hb hecho
              rcases handlerResult with e | response
              · simp [handleIncomingMessage, hjid, hid, hecho', hmem]
                split_ifs <;> rfl
              · rcases sendResult with e2 | osid
                · simp [handleIncomingMessage, hjid, hid, hecho', hmem]
                  split_ifs <;> rfl
                · cases osid with
                  | none =>
                    simp [handleIncomingMessage, hjid, hid, hecho', hmem]
                    split_ifs <;> rfl
                  | some sid =>
                    simp [handleIncomingMessage, hjid, hid, hecho', hmem]
                    split_ifs <;> rfl

/-- C8 (amended): the processed-message set is capped — handling any message
keeps it at 1000 entries or fewer, and the overflow trim drops exactly the
oldest 500 in insertion order — while the self-sent set has no eviction at
all and grows without bound (see the counterexample run). -/
theorem processed_set_bounded (config : WASessionConfig)
    (hasHandler socketPresent presenceOk : Bool)
    (handlerResult : Except String String)
    (sendResult : Except String (Option String))
    (st : WAMessagingState) (msg : WAMessageInfo)
    (hbound : st.processedMessages.length ≤ 1000) :
    (handleIncomingMessage config hasHandler socketPresent presenceOk
        handlerResult sendResult st msg).1.processedMessages.length ≤ 1000 ∧
    (∀ ids : List String, ids.length > 1000 →
      trimProcessed ids = ids.drop 500) := by
  constructor
  · rcases handle_processed_cases config hasHandler socketPresent presenceOk
      handlerResult sendResult st msg with h | ⟨i, h⟩
    · rw [h]; exact hbound
    · rw [h]
      exact trimProcessed_length_le _
        (le_trans (jsSetAdd_length_le _ _) (by omega))
  · intro ids hlen
    unfold trimProcessed
    rw [if_pos hlen]

def c8BigList : List String := (List.range 1001).map sentFloodId

theorem c8BigList_length : c8BigList.length = 1001 := by
  unfold c8BigList
  rw [List.length_map, List.length_range]

theorem processed_set_bounded_witness :
    (handleIncomingMessage floodConfig true true true (Except.ok "reply")
        (Except.ok (some (sentFloodId 1)))
        { processedMessages := [], botSentMessages := [] }
        (floodMessage 1)).1.processedMessages.length ≤ 1000 ∧
    trimProcessed c8BigList = c8BigList.drop 500 :=
  ⟨(processed_set_bounded floodConfig true true true (Except.ok "reply")
      (Except.ok (some (sentFloodId 1)))
      { processedMessages := [], botSentMessages := [] }
      (floodMessage 1) (by decide)).1,
   (processed_set_bounded floodConfig true true true (Except.ok "reply")
      (Except.ok (some (sentFloodId 1)))
      { processedMessages := [], botSentMessages := [] }
      (floodMessage 1) (by decide)).2 c8BigList
      (by rw [c8BigList_length]; decide)⟩

/-! ## C9: best-effort startAll / stopAll -/

theorem startAll_append (hasHandler : Bool) (l1 l2 : List ChannelSpec) :
    startAll hasHandler (l1 ++ l2) =
      startAll hasHandler l1 ++ startAll hasHandler l2 := by
  induction l1 with
  | nil => simp [startAll]
  | cons c rest ih =>
    conv_lhs => rw [List.cons_append, startAll]
    rw [ih]
    conv_rhs => rw [startAll]
    rw [List.append_assoc]

theorem stopAll_append (l1 l2 : List ChannelSpec) :
    stopAll (l1 ++ l2) = stopAll l1 ++ stopAll l2 := by
  induction l1 with
  | nil => simp [stopAll]
  | cons c rest ih =>
    conv_lhs => rw [List.cons_append, stopAll]
    rw [ih]
    conv_rhs => rw [stopAll]
    rw [List.append_assoc]

/-- C9: `startAll` and `stopAll` process the registered channels
independently — the channels before and after any given channel are handled
exactly as they would be on their own, so one channel's failure never
prevents the others from being started or stopped — and a failure is logged
per channel instead of raised. -/
theorem channel_start_stop_best_effort (cs1 cs2 : List ChannelSpec)
    (c : ChannelSpec) (e : String) :
    startAll true (cs1 ++ c :: cs2) =
      startAll true cs1 ++ (startAll true [c] ++ startAll true cs2) ∧
    stopAll (cs1 ++ c :: cs2) =
      stopAll cs1 ++ (stopAll [c] ++ stopAll cs2) ∧
    (c.startResult = Except.error e →
      LogEntry.error ("Failed to start channel " ++ c.name ++ ": " ++ e) ∈
        startAll true (cs1 ++ c :: cs2)) ∧
    (c.stopResult = Except.error e →
      LogEntry.error ("Failed to stop channel " ++ c.name ++ ": " ++ e) ∈
        stopAll (cs1 ++ c :: cs2)) := by
  have hs : startAll true (cs1 ++ c :: cs2) =
      startAll true cs1 ++ (startAll true [c] ++ startAll true cs2) := by
    rw [show c :: cs2 = [c] ++ cs2 from rfl, startAll_append, startAll_append]
  have ht : stopAll (cs1 ++ c :: cs2) =
      stopAll cs1 ++ (stopAll [c] ++ stopAll cs2) := by
    rw [show c :: cs2 = [c] ++ cs2 from rfl, stopAll_append, stopAll_append]
  refine ⟨hs, ht, ?_, ?_⟩
  · intro herr
    rw [hs]
    apply List.mem_append.mpr
    right
    apply List.mem_append.mpr
    left
    simp [startAll, herr]
  · intro herr
    rw [ht]
    apply List.mem_append.mpr
    right
    apply List.mem_append.mpr
    left
    simp [stopAll, herr]

def c9Good : ChannelSpec :=
  { name := "whatsapp", startResult := Except.ok ()
    stopResult := Except.ok () }

def c9Bad : ChannelSpec :=
  { name := "telegram", startResult := Except.error "socket refused"
    stopResult := Except.error "socket refused" }

theorem channel_start_stop_best_effort_witness :
    startAll true ([c9Bad] ++ c9Good :: []) =
      startAll true [c9Bad] ++ (startAll true [c9Good] ++ startAll true []) ∧
    stopAll ([c9Bad] ++ c9Good :: []) =
      stopAll [c9Bad] ++ (stopAll [c9Good] ++ stopAll []) ∧
    LogEntry.error ("Failed to start channel " ++ c9Bad.name ++ ": " ++
        "socket refused") ∈ startAll true ([c9Good] ++ c9Bad :: []) ∧
    LogEntry.error ("Failed to stop channel " ++ c9Bad.name ++ ": " ++
        "socket refused") ∈ stopAll ([c9Good] ++ c9Bad :: []) :=
  ⟨(channel_start_stop_best_effort [c9Bad] [] c9Good "nope").1,
   (channel_start_stop_best_effort [c9Bad] [] c9Good "nope").2.1,
   (channel_start_stop_best_effort [c9Good] [] c9Bad "socket refused").2.2.1 rfl,
   (channel_start_stop_best_effort [c9Good] [] c9Bad "socket refused").2.2.2 rfl⟩

end OpenClaw
